import Mathlib

/-!
Verification of the ALICE oracle core (src/app.js).

The repository file concatenates three near-duplicate variants of the same
server.  The functions verified here are shallow embeddings of:

  * getLunarMessage            (src/app.js lines 36-48, identical in all variants)
  * getLunarPatternTierFromAngle (lines 50-59, identical in all variants)
  * getLunarSignal             (lines 61-95, identical in all variants)
  * identifyArchetype          (lines 215-225, identical in all variants)
  * formatNumber / formatPrice / formatPercent (lines 307-326)
  * generateOracleInsight      (variant 1: lines 328-418; variant 2: lines 1305-1394)

JavaScript numbers are modelled as rationals (ℚ); the only NaN-sensitive
guards in the embedded code (the `!x && x !== 0` placeholder branches of the
formatters) fire only on NaN/undefined inputs, which do not arise for the
rational inputs modelled here, and are noted in comments at each spot.
Randomness (`Math.random()`) and the responses of external collaborators
(weather API, GPT) are passed in as explicit inputs.
-/

namespace Alice

/-- JS `Number.prototype.toFixed(d)` on rationals: the sign is taken first,
then the magnitude is rounded to the nearest multiple of 10^(-d), ties away
from zero (ECMA-262: of two equally near integers the larger is taken). -/
def padZeros (d : Nat) (s : String) : String :=
  if d ≤ s.length then s else String.mk (List.replicate (d - s.length) '0') ++ s

def toFixed (d : Nat) (q : ℚ) : String :=
  let sign := if q < 0 then "-" else ""
  let x := |q|
  let n := (Int.floor (x * (10 : ℚ) ^ d + 1 / 2)).toNat
  let ip := n / 10 ^ d
  let fp := n % 10 ^ d
  if d = 0 then sign ++ toString ip
  else sign ++ toString ip ++ "." ++ padZeros d (toString fp)

/-- JS `String.prototype.includes`: substring test. -/
def startsWithChars : List Char → List Char → Bool
  | [], _ => true
  | _ :: _, [] => false
  | a :: as, b :: bs => a = b && startsWithChars as bs

def containsChars (pat : List Char) : List Char → Bool
  | [] => startsWithChars pat []
  | c :: rest => startsWithChars pat (c :: rest) || containsChars pat rest

def jsIncludes (s pat : String) : Bool :=
  containsChars pat.toList s.toList

/-- JS `||` on a possibly-absent string: `undefined`, `null` and the empty
string are falsy, so they all select the default. -/
def jsOrStr (v : Option String) (d : String) : String :=
  match v with
  | none => d
  | some s => if s = "" then d else s

-- LUNAR SIGNAL NORMALIZER (src/app.js lines 36-95)

structure PatternTier where
  tier : String
  glyph : String
  signal : String
deriving DecidableEq

/-- src/app.js lines 36-48 (`getLunarMessage`). -/
def getLunarMessage (phase : String) : String :=
  if phase = "New Moon" then "New pattern forming — wait, don't act."
  else if phase = "Waxing Crescent" then "Conviction forming. Early risk finds momentum."
  else if phase = "First Quarter" then "Signal friction. Cut noise."
  else if phase = "Waxing Gibbous" then "Belief climbing — echo gaining mass."
  else if phase = "Full Moon" then "Full sentiment — prepare for reversal."
  else if phase = "Waning Gibbous" then "Decompression — profit + shadow emerge."
  else if phase = "Last Quarter" then "Ritual endings. Retest mind."
  else if phase = "Waning Crescent" then "Fading signal — prepare to receive anew."
  else "Lunar unknown — silence reverberates."

/-- src/app.js lines 50-59 (`getLunarPatternTierFromAngle`): a plain
strictly-increasing comparison ladder; note that the source performs no
modulo reduction on `angle`. -/
def getLunarPatternTierFromAngle (angle : ℚ) : PatternTier :=
  if angle < 45/2 then { tier := "Veil", glyph := "⟡", signal := "Nothing reveals — pause, dream." }
  else if angle < 135/2 then { tier := "Whisper", glyph := "~", signal := "Pre-signal buildup." }
  else if angle < 225/2 then { tier := "Charge", glyph := "⇌", signal := "Conviction forming." }
  else if angle < 315/2 then { tier := "Charge", glyph := "⇌", signal := "Momentum accelerating." }
  else if angle < 405/2 then { tier := "Overglow", glyph := "☄", signal := "Full sentiment — likely reversal." }
  else if angle < 495/2 then { tier := "Echofield", glyph := "⟟", signal := "Echo still resonates." }
  else if angle < 585/2 then { tier := "Whisper", glyph := "~", signal := "Decline forming quietly." }
  else { tier := "Veil", glyph := "⟡", signal := "Signal fading — prepare anew." }

/-- Angle reduction modulo 360, written from the spec's words ("Input angle
must be taken modulo 360 before lookup") for comparison with the source
function, which performs no such reduction. -/
def angleMod360 (a : ℚ) : ℚ := a - 360 * Int.floor (a / 360)

structure LunarSignal where
  phase : String
  illumination : String
  message : String
  pattern : PatternTier
  source : String
deriving DecidableEq

/-- The `fallback` record of `getLunarSignal` (src/app.js lines 62-67); the
`time` timestamp field is wall-clock noise and is not modelled. -/
def lunarFallback : LunarSignal :=
  { phase := "Waning Crescent", illumination := "45",
    message := getLunarMessage "Waning Crescent",
    pattern := getLunarPatternTierFromAngle 315,
    source := "fallback" }

/-- The optional-chained fields `j?.astronomy?.astro?.moon_phase` and
`j?.astronomy?.astro?.moon_illumination` of the weather-API response. -/
structure AstroReading where
  moon_phase : Option String
  moon_illumination : Option String

/-- Outcome of the fetch-and-parse of the weather API inside the `try`
block: either a parsed response or a raised exception. -/
inductive FetchOutcome where
  | success (j : AstroReading)
  | failure

/-- The `angleMap` literal of src/app.js lines 78-82. -/
def angleMap (phase : String) : Option ℚ :=
  if phase = "New Moon" then some 0
  else if phase = "Waxing Crescent" then some 45
  else if phase = "First Quarter" then some 90
  else if phase = "Waxing Gibbous" then some 135
  else if phase = "Full Moon" then some 180
  else if phase = "Waning Gibbous" then some 225
  else if phase = "Last Quarter" then some 270
  else if phase = "Waning Crescent" then some 315
  else none

/-- src/app.js lines 61-95 (`getLunarSignal`), with the presence of a
(non-empty) `WEATHER_API_KEY` and the fetch outcome passed explicitly.  The
`catch` branch (lines 91-94) returns the very `fallback` record, whose
`source` is "fallback". -/
def getLunarSignal (hasKey : Bool) (outcome : FetchOutcome) : LunarSignal :=
  if !hasKey then lunarFallback
  else
    match outcome with
    | FetchOutcome.failure => lunarFallback
    | FetchOutcome.success j =>
      let phase := jsOrStr j.moon_phase lunarFallback.phase
      let ill := jsOrStr j.moon_illumination "0"
      let angle := (angleMap phase).getD 0
      { phase := phase, illumination := ill,
        message := getLunarMessage phase,
        pattern := getLunarPatternTierFromAngle angle,
        source := "weatherapi" }

def canonicalPhases : List String :=
  ["New Moon", "Waxing Crescent", "First Quarter", "Waxing Gibbous",
   "Full Moon", "Waning Gibbous", "Last Quarter", "Waning Crescent"]

-- MARKET ARCHETYPE CLASSIFIER (src/app.js lines 215-225)

/-- A JavaScript value as it may reach the `rsi` parameter: a number,
`null` (forwarded when the RSI could not be computed), or `undefined`. -/
inductive JsVal where
  | undef
  | null
  | num (q : ℚ)
deriving DecidableEq

/-- A destructuring default `x = d` applies only when the incoming value is
`undefined`; `null` passes through unchanged. -/
def destructDefault (v : JsVal) (d : ℚ) : JsVal :=
  match v with
  | JsVal.undef => JsVal.num d
  | x => x

/-- JS `<` between a value and a number literal: `null` coerces to 0,
`undefined` coerces to NaN so every comparison is false. -/
def jsLt (v : JsVal) (q : ℚ) : Bool :=
  match v with
  | JsVal.undef => false
  | JsVal.null => decide ((0 : ℚ) < q)
  | JsVal.num x => decide (x < q)

def jsGe (v : JsVal) (q : ℚ) : Bool :=
  match v with
  | JsVal.undef => false
  | JsVal.null => decide (q ≤ (0 : ℚ))
  | JsVal.num x => decide (q ≤ x)

/-- src/app.js lines 215-225 (`identifyArchetype`), identical in all three
variants.  `draw` is the explicit `Math.random()` input of the BONK branch,
uniform in [0,1).  `const v = parseFloat(volume) || 0` is the identity on
the numeric volumes modelled here (parseFloat of a finite number round-trips
and `|| 0` only rewrites NaN and -0). -/
def identifyArchetype (symbol : String) (rsi : JsVal) (volume : ℚ) (draw : ℚ) : String :=
  let r := destructDefault rsi 50
  let v := volume
  if jsLt r (118/5) then "shadow"
  else if jsLt r (191/5) then (if v > 10000000 then "trickster" else "observer")
  else if jsLt r 50 then "echo"
  else if jsLt r (309/5) then "seer"
  else if jsLt r (393/5) then "guardian"
  else if jsGe r (393/5) && jsIncludes symbol "SOL" then "prophet"
  else if jsIncludes symbol "BONK" then (if draw > 3/10 then "cultist" else "trickster")
  else "seer"

-- FORMATTERS (src/app.js lines 307-326)

/-- src/app.js lines 307-313 (`formatNumber`).  The `!num && num !== 0`
placeholder guard ("--") fires only on NaN/undefined, which do not arise in
the rational model. -/
def formatNumber (num : ℚ) (decimals : Nat) : String :=
  if 1000000000 ≤ num then toFixed decimals (num / 1000000000) ++ "B"
  else if 1000000 ≤ num then toFixed decimals (num / 1000000) ++ "M"
  else if 1000 ≤ num then toFixed decimals (num / 1000) ++ "K"
  else toFixed decimals num

/-- src/app.js lines 315-320 (`formatPrice`).  The `!price && price !== 0`
placeholder guard ("--") fires only on NaN/undefined, which do not arise in
the rational model. -/
def formatPrice (price : ℚ) : String :=
  if price < 1/100 then toFixed 8 price
  else if price < 1 then toFixed 4 price
  else toFixed 2 price

/-- src/app.js lines 322-326 (`formatPercent`). -/
def formatPercent (num : ℚ) : String :=
  let sign := if 0 < num then "+" else ""
  sign ++ toFixed 2 num ++ "%"

-- REPORT FORMATTER (src/app.js lines 328-418, variant 2 lines 1305-1394)

/-- Helper for the regex `/"([^"]+)"/`: split a character list at its first
double quote, returning the characters before it and after it. -/
def takeUntilQuote : List Char → Option (List Char × List Char)
  | [] => none
  | c :: rest =>
      if c = '"' then some ([], rest)
      else
        match takeUntilQuote rest with
        | some (a, b) => some (c :: a, b)
        | none => none

/-- Leftmost match of the regex `/"([^"]+)"/` (`response.match(...)` at
src/app.js line 381): scanning left to right, a match starts at a double
quote that is followed by at least one non-quote character and then a
closing double quote.  Returns (text before the match, the inner group,
text after the match). -/
def matchQuoted : List Char → Option (List Char × List Char × List Char)
  | [] => none
  | c :: rest =>
      if c = '"' then
        match takeUntilQuote rest with
        | none => none
        | some (inner, after) =>
            if inner = [] then
              (matchQuoted rest).map (fun t => (c :: t.1, t.2.1, t.2.2))
            else
              some ([], inner, after)
      else
        (matchQuoted rest).map (fun t => (c :: t.1, t.2.1, t.2.2))

/-- JS `threshold.replace('.', '')` with a string pattern replaces only the
first occurrence. -/
def removeFirstDot : List Char → List Char
  | [] => []
  | c :: rest => if c = '.' then rest else c :: removeFirstDot rest

/-- JS `Math.floor` of a non-negative number, as a natural. -/
def jsFloorNat (q : ℚ) : Nat := (Int.floor q).toNat

/-- The fields of `tokenData` destructured by `generateOracleInsight`
(src/app.js lines 329-340; variant 2 additionally destructures `name`,
line 1317). -/
structure TokenSnapshot where
  symbol : String
  rsi : ℚ
  volumeUSD : ℚ
  price : ℚ
  marketCap : ℚ
  fdv : ℚ
  circulatingSupply : ℚ
  totalSupply : ℚ
  holders : ℚ
  change24h : ℚ
  name : String
deriving DecidableEq

/-- The destructuring defaults applied when `tokenData` is null
(`tokenData || {}`, src/app.js line 340). -/
def defaultSnapshot : TokenSnapshot :=
  { symbol := "XXX", rsi := 50, volumeUSD := 0, price := 0, marketCap := 0,
    fdv := 0, circulatingSupply := 0, totalSupply := 0, holders := 0,
    change24h := 0, name := "Unknown Token" }

/-- The four `Math.random()` draws of `generateOracleInsight`
(src/app.js lines 350-355), each uniform in [0,1). -/
structure Randoms where
  deltaDraw : ℚ
  driftDraw : ℚ
  omegaDraw : ℚ
  deltaIntDraw : ℚ
deriving DecidableEq

/-- The values computed by `generateOracleInsight` (src/app.js lines
345-417): the derived metrics, the quote/pulse texts, and the assembled
tweet. -/
structure OracleReport where
  mysticalQuote : String
  oraclePulse : String
  volMcapRatio : String
  cycleIndex : String
  threshold : String
  echoRim : String
  deltaKey : String
  phaseDrift : String
  alignmentString : String
  tweet : String
deriving DecidableEq

/-- The fixed default quote (src/app.js line 368). -/
def defaultQuote : String :=
  "\"Mid-caps awaken as rotation intensifies; the spiral pulls tight around a new pivot.\""

/-- The default pulse template of variant 1 (src/app.js line 369). -/
def defaultPulseV1 (symbol : String) (price change24h : ℚ) (threshold echoRim : String) : String :=
  symbol ++ " is consolidating above $" ++ formatPrice price ++
  " with strong volume and nearly a " ++ toFixed 0 |change24h| ++
  "% daily gain. Market cap expansion alongside a high volume-to-market-cap ratio suggests bullish rotation into mids. A sustained break above " ++
  threshold ++ " could open the mirror toward " ++ echoRim ++
  ", while weakness below " ++ toFixed 2 (price * (24/25)) ++
  " may trigger a retrace to the mid-" ++ toFixed 0 (price * (9/10)) ++ "s."

/-- The default pulse template of variant 2 (src/app.js line 1347): the
sole difference from variant 1 is `formatPrice(price * 0.96)` in place of
`(price * 0.96).toFixed(2)`. -/
def defaultPulseV2 (symbol : String) (price change24h : ℚ) (threshold echoRim : String) : String :=
  symbol ++ " is consolidating above $" ++ formatPrice price ++
  " with strong volume and nearly a " ++ toFixed 0 |change24h| ++
  "% daily gain. Market cap expansion alongside a high volume-to-market-cap ratio suggests bullish rotation into mids. A sustained break above " ++
  threshold ++ " could open the mirror toward " ++ echoRim ++
  ", while weakness below " ++ formatPrice (price * (24/25)) ++
  " may trigger a retrace to the mid-" ++ toFixed 0 (price * (9/10)) ++ "s."

/-- The quote/pulse resolution of src/app.js lines 368-391: the GPT call is
passed in as `gpt` (`none` models a thrown/failed call, `some c` a response
with content `c`).  On success the first `/"([^"]+)"/` match becomes the
quote and is removed (JS `String.replace` with a string pattern removes the
first occurrence, which for a leftmost regex match is the match itself);
without a match the whole response becomes the pulse. -/
def resolveQuotePulse (gpt : Option String) (defPulse : String) : String × String :=
  match gpt with
  | none => (defaultQuote, defPulse)
  | some content =>
      let response := content.trim
      match matchQuoted response.toList with
      | some t => ("\"" ++ String.mk t.2.1 ++ "\"", (String.mk (t.1 ++ t.2.2)).trim)
      | none => (defaultQuote, response)

/-- src/app.js lines 328-418 (`generateOracleInsight`, variant 1).  The GPT
prompt string (lines 360-366) is built only to be sent to the external
collaborator and does not reach the returned report, so it is not modelled;
`lunar` enters only that prompt. -/
def generateOracleInsight (lunar : LunarSignal) (tokenData : Option TokenSnapshot)
    (archetype : String) (rnd : Randoms) (gpt : Option String) : OracleReport :=
  let t := tokenData.getD defaultSnapshot
  let volMcapRatio :=
    if t.marketCap > 0 then toFixed 1 (t.volumeUSD / t.marketCap * 100) else "0.0"
  let cycleIndex := toFixed 2 (t.rsi / 100 * (809/500))
  let threshold := toFixed 2 (t.price * (21/20))
  let echoRim := toFixed 2 (t.price * (23/20))
  let deltaKey := toFixed 2 (rnd.deltaDraw * 2 + 1/2)
  let phaseDrift := toFixed 4 ((rnd.driftDraw - 1/2) * (1/20))
  let omega := jsFloorNat (rnd.omegaDraw * 999)
  let delta := jsFloorNat (rnd.deltaIntDraw * 99)
  let thNum := String.mk (removeFirstDot threshold.toList)
  let echoNum := String.mk (removeFirstDot echoRim.toList)
  let alignmentString :=
    t.symbol ++ "-" ++ toString omega ++ "Ω / Δ" ++ toString delta ++
    " : TH" ++ thNum ++ " < ECHO > " ++ echoNum
  let qp := resolveQuotePulse gpt (defaultPulseV1 t.symbol t.price t.change24h threshold echoRim)
  let tweet :=
    "◇ EVAA PROTOCOL // EVAA — ACTIVE READ (Refined)\n\n" ++ qp.1 ++
    "\n\nPrice: " ++ formatPrice t.price ++ " • 24h Change: " ++ formatPercent t.change24h ++
    "\n24h Volume: " ++ formatNumber t.volumeUSD 2 ++
    "\nMarket Cap: " ++ formatNumber t.marketCap 2 ++
    "\nFully Diluted Valuation: " ++ formatNumber t.fdv 2 ++
    "\nCirculating Supply: " ++ formatNumber t.circulatingSupply 2 ++ " " ++ t.symbol ++
    "\nVolume/Market Cap: " ++ volMcapRatio ++ "%" ++
    "\nHolders: " ++ formatNumber (t.holders / 1000) 2 ++ "K" ++
    "\nTotal Supply: " ++ formatNumber (t.totalSupply / 1000000) 2 ++ "M " ++ t.symbol ++
    "\nCycle Index: " ++ cycleIndex ++ " /φ" ++
    "\nThreshold: " ++ threshold ++
    "\nEcho Rim: " ++ echoRim ++
    "\nΔ-Key: " ++ deltaKey ++
    "\nPhase Drift: " ++ phaseDrift ++ " / h" ++
    "\nAlignment String:\n" ++ alignmentString ++
    "\n\nOracle Pulse:\n" ++ qp.2
  { mysticalQuote := qp.1, oraclePulse := qp.2, volMcapRatio := volMcapRatio,
    cycleIndex := cycleIndex, threshold := threshold, echoRim := echoRim,
    deltaKey := deltaKey, phaseDrift := phaseDrift,
    alignmentString := alignmentString, tweet := tweet }

/-- src/app.js lines 1305-1394 (`generateOracleInsight`, variant 2).
Differences from variant 1: `threshold`/`echoRim` go through `formatPrice`
(lines 1326-1327), the default pulse uses `formatPrice(price * 0.96)`
(line 1347), and the tweet header interpolates `name`/`symbol`
(line 1370). -/
def generateOracleInsightV2 (lunar : LunarSignal) (tokenData : Option TokenSnapshot)
    (archetype : String) (rnd : Randoms) (gpt : Option String) : OracleReport :=
  let t := tokenData.getD defaultSnapshot
  let volMcapRatio :=
    if t.marketCap > 0 then toFixed 1 (t.volumeUSD / t.marketCap * 100) else "0.0"
  let cycleIndex := toFixed 2 (t.rsi / 100 * (809/500))
  let threshold := formatPrice (t.price * (21/20))
  let echoRim := formatPrice (t.price * (23/20))
  let deltaKey := toFixed 2 (rnd.deltaDraw * 2 + 1/2)
  let phaseDrift := toFixed 4 ((rnd.driftDraw - 1/2) * (1/20))
  let omega := jsFloorNat (rnd.omegaDraw * 999)
  let delta := jsFloorNat (rnd.deltaIntDraw * 99)
  let thNum := String.mk (removeFirstDot threshold.toList)
  let echoNum := String.mk (removeFirstDot echoRim.toList)
  let alignmentString :=
    t.symbol ++ "-" ++ toString omega ++ "Ω / Δ" ++ toString delta ++
    " : TH" ++ thNum ++ " < ECHO > " ++ echoNum
  let qp := resolveQuotePulse gpt (defaultPulseV2 t.symbol t.price t.change24h threshold echoRim)
  let tweet :=
    "◇ " ++ t.name.toUpper ++ " // " ++ t.symbol ++ " — ACTIVE READ (Refined)\n\n" ++ qp.1 ++
    "\n\nPrice: " ++ formatPrice t.price ++ " • 24h Change: " ++ formatPercent t.change24h ++
    "\n24h Volume: " ++ formatNumber t.volumeUSD 2 ++
    "\nMarket Cap: " ++ formatNumber t.marketCap 2 ++
    "\nFully Diluted Valuation: " ++ formatNumber t.fdv 2 ++
    "\nCirculating Supply: " ++ formatNumber t.circulatingSupply 2 ++ " " ++ t.symbol ++
    "\nVolume/Market Cap: " ++ volMcapRatio ++ "%" ++
    "\nHolders: " ++ formatNumber (t.holders / 1000) 2 ++ "K" ++
    "\nTotal Supply: " ++ formatNumber (t.totalSupply / 1000000) 2 ++ "M " ++ t.symbol ++
    "\nCycle Index: " ++ cycleIndex ++ " /φ" ++
    "\nThreshold: " ++ threshold ++
    "\nEcho Rim: " ++ echoRim ++
    "\nΔ-Key: " ++ deltaKey ++
    "\nPhase Drift: " ++ phaseDrift ++ " / h" ++
    "\nAlignment String:\n" ++ alignmentString ++
    "\n\nOracle Pulse:\n" ++ qp.2
  { mysticalQuote := qp.1, oraclePulse := qp.2, volMcapRatio := volMcapRatio,
    cycleIndex := cycleIndex, threshold := threshold, echoRim := echoRim,
    deltaKey := deltaKey, phaseDrift := phaseDrift,
    alignmentString := alignmentString, tweet := tweet }

-- SAMPLE VALUES USED BY CONCRETE COUNTEREXAMPLES AND WITNESSES

def sampleRnd : Randoms :=
  { deltaDraw := 0, driftDraw := 0, omegaDraw := 0, deltaIntDraw := 0 }

def cheapToken : TokenSnapshot :=
  { symbol := "ABC", rsi := 50, volumeUSD := 1000, price := 1/200, marketCap := 10000,
    fdv := 0, circulatingSupply := 0, totalSupply := 0, holders := 0, change24h := 0,
    name := "Abc Token" }

def zeroCapToken : TokenSnapshot := { cheapToken with marketCap := 0 }

-- SHARED HELPERS

theorem jsIncludes_sol_sol : jsIncludes "SOL" "SOL" = true := by rfl

theorem jsIncludes_xyz_sol : jsIncludes "XYZ" "SOL" = false := by rfl

theorem jsIncludes_xyz_bonk : jsIncludes "XYZ" "BONK" = false := by rfl

theorem jsIncludes_bonkcoin_sol : jsIncludes "BONKCOIN" "SOL" = false := by rfl

theorem jsIncludes_bonkcoin_bonk : jsIncludes "BONKCOIN" "BONK" = true := by rfl

theorem getLunarMessage_default (p : String) (h : p ∉ canonicalPhases) :
    getLunarMessage p = "Lunar unknown — silence reverberates." := by
  simp only [canonicalPhases, List.mem_cons, List.not_mem_nil, or_false] at h
  push_neg at h
  obtain ⟨h1, h2, h3, h4, h5, h6, h7, h8⟩ := h
  simp [getLunarMessage, h1, h2, h3, h4, h5, h6, h7, h8]

theorem angleMap_none (p : String) (h : p ∉ canonicalPhases) : angleMap p = none := by
  simp only [canonicalPhases, List.mem_cons, List.not_mem_nil, or_false] at h
  push_neg at h
  obtain ⟨h1, h2, h3, h4, h5, h6, h7, h8⟩ := h
  simp [angleMap, h1, h2, h3, h4, h5, h6, h7, h8]

-- CLAIM THEOREMS

/-- C1 (counterexample): the claim "for every symbol containing BONK the
randomized cultist/trickster tie-break applies regardless of RSI band, so
classify(\x22BONKCOIN\x22, rsi=45, volume=0) is cultist exactly when the draw
exceeds 0.3" is false: at rsi = 45 the `rsi < 50` band returns "echo"
before the BONK test is ever reached, even for a draw of 0.9 > 0.3. -/
theorem c1_counterexample :
    identifyArchetype "BONKCOIN" (JsVal.num 45) 0 (9/10) = "echo" ∧
    identifyArchetype "BONKCOIN" (JsVal.num 45) 0 (9/10) ≠ "cultist" := by
  have h : identifyArchetype "BONKCOIN" (JsVal.num 45) 0 (9/10) = "echo" := by
    norm_num [identifyArchetype, destructDefault, jsLt]
  exact ⟨h, by rw [h]; decide⟩

/-- C1 (amended): the BONK cultist/trickster tie-break is NOT a post-hoc
override; it sits after the RSI ladder and the SOL check, so it is reached
only when rsi ≥ 78.6 and the symbol does not contain "SOL".  In particular
classify("BONKCOIN", rsi=45, volume=0) is deterministically "echo", while
classify("BONKCOIN", rsi=80, volume=0) is "cultist" exactly when the
uniform draw exceeds 0.3 and "trickster" otherwise. -/
theorem c1_bonk_tiebreak_banded (draw : ℚ) :
    identifyArchetype "BONKCOIN" (JsVal.num 45) 0 draw = "echo" ∧
    (draw > 0.3 → identifyArchetype "BONKCOIN" (JsVal.num 80) 0 draw = "cultist") ∧
    (draw ≤ 0.3 → identifyArchetype "BONKCOIN" (JsVal.num 80) 0 draw = "trickster") := by
  refine ⟨?_, ?_, ?_⟩
  · norm_num [identifyArchetype, destructDefault, jsLt]
  · intro h
    have h' : (3 : ℚ)/10 < draw := by norm_num at h; exact h
    norm_num [identifyArchetype, destructDefault, jsLt, jsGe,
              jsIncludes_bonkcoin_sol, jsIncludes_bonkcoin_bonk, h']
  · intro h
    have h' : ¬ ((3 : ℚ)/10 < draw) := by
      norm_num at h
      exact not_lt.mpr h
    norm_num [identifyArchetype, destructDefault, jsLt, jsGe,
              jsIncludes_bonkcoin_sol, jsIncludes_bonkcoin_bonk, h']

/-- C1 witness: concrete draws on both sides of the 0.3 tie-break. -/
theorem c1_bonk_tiebreak_banded_witness :
    identifyArchetype "BONKCOIN" (JsVal.num 80) 0 (1/2) = "cultist" ∧
    identifyArchetype "BONKCOIN" (JsVal.num 80) 0 (1/5) = "trickster" :=
  ⟨(c1_bonk_tiebreak_banded (1/2)).2.1 (by norm_num),
   (c1_bonk_tiebreak_banded (1/5)).2.2 (by norm_num)⟩

/-- C2 (counterexample): the claim that a caught processing exception yields
a signal tagged source="error" is false: the catch branch of
`getLunarSignal` returns the very fallback record, tagged "fallback". -/
theorem c2_counterexample :
    (getLunarSignal true FetchOutcome.failure).source = "fallback" ∧
    (getLunarSignal true FetchOutcome.failure).source ≠ "error" :=
  ⟨rfl, by decide⟩

/-- C2 (amended): on any processing exception `getLunarSignal` returns the
same fallback content as the no-credential path, tagged source="fallback";
the code does not distinguish the error case with a separate "error" tag
(whether or not a credential is present, the failure result is exactly the
fallback record). -/
theorem c2_error_path_returns_fallback_tag (hasKey : Bool) :
    getLunarSignal hasKey FetchOutcome.failure = lunarFallback ∧
    lunarFallback.source = "fallback" := by
  cases hasKey <;> exact ⟨rfl, rfl⟩

/-- C3 (counterexample): the claim that the angle is reduced modulo 360
before the sector lookup is false: at 450° the source ladder lands in the
final `else` (Veil) while 450 mod 360 = 90 lands in Charge. -/
theorem c3_counterexample :
    getLunarPatternTierFromAngle 450 ≠ getLunarPatternTierFromAngle (angleMod360 450) := by
  have h1 : Int.floor ((450 : ℚ) / 360) = 1 := by
    rw [Int.floor_eq_iff]
    norm_num
  have hm : angleMod360 450 = 90 := by
    unfold angleMod360
    rw [h1]
    norm_num
  have h450 : getLunarPatternTierFromAngle 450
      = { tier := "Veil", glyph := "⟡", signal := "Signal fading — prepare anew." } := by
    norm_num [getLunarPatternTierFromAngle]
  have h90 : getLunarPatternTierFromAngle 90
      = { tier := "Charge", glyph := "⇌", signal := "Conviction forming." } := by
    norm_num [getLunarPatternTierFromAngle]
  rw [hm, h450, h90]
  decide

/-- C3 (amended): `getLunarPatternTierFromAngle` performs no modulo-360
reduction.  It agrees with the mod-360 reduction exactly on [0, 360); every
negative angle falls into the first Veil sector and every angle ≥ 360 into
the last Veil sector, so outside [0, 360) it generally disagrees with the
reduced lookup (see the counterexample at 450). -/
theorem c3_no_modulo_reduction (a : ℚ) :
    (0 ≤ a → a < 360 → getLunarPatternTierFromAngle a = getLunarPatternTierFromAngle (angleMod360 a)) ∧
    (a < 0 → getLunarPatternTierFromAngle a
      = { tier := "Veil", glyph := "⟡", signal := "Nothing reveals — pause, dream." }) ∧
    (360 ≤ a → getLunarPatternTierFromAngle a
      = { tier := "Veil", glyph := "⟡", signal := "Signal fading — prepare anew." }) := by
  refine ⟨?_, ?_, ?_⟩
  · intro h0 h1
    have hq : angleMod360 a = a := by
      unfold angleMod360
      have : Int.floor (a / 360) = 0 := by
        rw [Int.floor_eq_zero_iff]
        constructor
        · exact div_nonneg h0 (by norm_num)
        · rw [div_lt_one (by norm_num)]; linarith
      rw [this]; ring
    rw [hq]
  · intro h
    unfold getLunarPatternTierFromAngle
    rw [if_pos (show a < 45/2 by linarith)]
  · intro h
    unfold getLunarPatternTierFromAngle
    rw [if_neg (by push_neg; linarith), if_neg (by push_neg; linarith),
        if_neg (by push_neg; linarith), if_neg (by push_neg; linarith),
        if_neg (by push_neg; linarith), if_neg (by push_neg; linarith),
        if_neg (by push_neg; linarith)]

/-- Evaluation helper for `toFixed` at a non-negative input whose rounded
scaled value is known: isolates the single rational-arithmetic fact (the
floor) so that the remaining digit rendering is pure Nat/String
computation. -/
theorem toFixed_eval (d : Nat) (q : ℚ) (n : Nat) (h0 : 0 ≤ q)
    (h1 : (n : ℚ) ≤ q * (10 : ℚ) ^ d + 1 / 2)
    (h2 : q * (10 : ℚ) ^ d + 1 / 2 < (n : ℚ) + 1) :
    toFixed d q =
      (if d = 0 then "" ++ toString (n / 10 ^ d)
       else "" ++ toString (n / 10 ^ d) ++ "." ++ padZeros d (toString (n % 10 ^ d))) := by
  have hneg : ¬ (q < 0) := not_lt.mpr h0
  have habs : |q| = q := abs_of_nonneg h0
  have hfl : Int.floor (q * (10 : ℚ) ^ d + 1 / 2) = (n : ℤ) := by
    rw [Int.floor_eq_iff]
    exact ⟨by exact_mod_cast h1, by push_cast; exact_mod_cast h2⟩
  simp only [toFixed, habs, hfl, hneg, if_false, Int.toNat_natCast]

/-- C3 witness: the three regimes at 100, -5 and 400. -/
theorem c3_no_modulo_reduction_witness :
    getLunarPatternTierFromAngle 100 = getLunarPatternTierFromAngle (angleMod360 100) ∧
    getLunarPatternTierFromAngle (-5)
      = { tier := "Veil", glyph := "⟡", signal := "Nothing reveals — pause, dream." } ∧
    getLunarPatternTierFromAngle 400
      = { tier := "Veil", glyph := "⟡", signal := "Signal fading — prepare anew." } :=
  ⟨(c3_no_modulo_reduction 100).1 (by norm_num) (by norm_num),
   (c3_no_modulo_reduction (-5)).2.1 (by norm_num),
   (c3_no_modulo_reduction 400).2.2 (by norm_num)⟩

/-- C4 (counterexample): the claim that the report's threshold field always
follows the `formatPrice` band rule is false for the first
`generateOracleInsight` variant (src/app.js lines 348-349), which renders
`price * 1.05` with an unconditional 2 decimals: at price 0.005 that gives
"0.01" while the band rule gives "0.00525000". -/
theorem c4_counterexample :
    (generateOracleInsight lunarFallback (some cheapToken) "seer" sampleRnd none).threshold
      ≠ formatPrice (cheapToken.price * (21/20)) := by
  have hth : (generateOracleInsight lunarFallback (some cheapToken) "seer" sampleRnd none).threshold
      = toFixed 2 ((1 : ℚ)/200 * (21/20)) := rfl
  have h2 : toFixed 2 ((1 : ℚ)/200 * (21/20)) = "0.01" := by
    rw [toFixed_eval 2 ((1 : ℚ)/200 * (21/20)) 1 (by norm_num) (by norm_num) (by norm_num)]
    rfl
  have hfp : formatPrice (cheapToken.price * (21/20)) = toFixed 8 ((1 : ℚ)/200 * (21/20)) := by
    show formatPrice ((1 : ℚ)/200 * (21/20)) = _
    unfold formatPrice
    rw [if_pos (by norm_num)]
  have h8 : toFixed 8 ((1 : ℚ)/200 * (21/20)) = "0.00525000" := by
    rw [toFixed_eval 8 ((1 : ℚ)/200 * (21/20)) 525000 (by norm_num) (by norm_num) (by norm_num)]
    rfl
  rw [hth, h2, hfp, h8]
  decide

/-- C4 (amended): only the second `generateOracleInsight` variant
(src/app.js lines 1326-1327) formats threshold/echoRim with the
`formatPrice` band rule; the first variant (lines 348-349) renders both
with an unconditional 2-decimal `toFixed`. -/
theorem c4_threshold_formatting (lunar : LunarSignal) (t : TokenSnapshot) (arch : String)
    (r : Randoms) (gpt : Option String) :
    (generateOracleInsightV2 lunar (some t) arch r gpt).threshold = formatPrice (t.price * (21/20)) ∧
    (generateOracleInsightV2 lunar (some t) arch r gpt).echoRim = formatPrice (t.price * (23/20)) ∧
    (generateOracleInsight lunar (some t) arch r gpt).threshold = toFixed 2 (t.price * (21/20)) ∧
    (generateOracleInsight lunar (some t) arch r gpt).echoRim = toFixed 2 (t.price * (23/20)) :=
  ⟨rfl, rfl, rfl, rfl⟩

/-- C5: the deterministic branches of the decision ladder behave as the
spec's test vector states: BTC/rsi 20 → shadow, DOGE/rsi 30/volume 15M →
trickster, DOGE/rsi 30/volume 5M → observer, SOL/rsi 80 → prophet for every
volume, XYZ/rsi 80 → seer for every volume (symbol without SOL or BONK). -/
theorem c5_decision_ladder (v draw : ℚ) :
    identifyArchetype "BTC" (JsVal.num 20) 0 draw = "shadow" ∧
    identifyArchetype "DOGE" (JsVal.num 30) 15000000 draw = "trickster" ∧
    identifyArchetype "DOGE" (JsVal.num 30) 5000000 draw = "observer" ∧
    identifyArchetype "SOL" (JsVal.num 80) v draw = "prophet" ∧
    identifyArchetype "XYZ" (JsVal.num 80) v draw = "seer" := by
  refine ⟨?_, ?_, ?_, ?_, ?_⟩
  · norm_num [identifyArchetype, destructDefault, jsLt]
  · norm_num [identifyArchetype, destructDefault, jsLt]
  · norm_num [identifyArchetype, destructDefault, jsLt]
  · norm_num [identifyArchetype, destructDefault, jsLt, jsGe, jsIncludes_sol_sol]
  · norm_num [identifyArchetype, destructDefault, jsLt, jsGe,
              jsIncludes_xyz_sol, jsIncludes_xyz_bonk]

/-- C6: for every angle in [0, 360) the tier is one of the five tier names,
each closed-open sector of the table maps to its stated tier, and each of
the seven interior boundary values resolves to the sector that starts
there. -/
theorem c6_sector_table (a : ℚ) (h0 : 0 ≤ a) (h1 : a < 360) :
    (getLunarPatternTierFromAngle a).tier
      ∈ (["Veil", "Whisper", "Charge", "Overglow", "Echofield"] : List String) ∧
    (a < 22.5 → (getLunarPatternTierFromAngle a).tier = "Veil") ∧
    (22.5 ≤ a → a < 67.5 → (getLunarPatternTierFromAngle a).tier = "Whisper") ∧
    (67.5 ≤ a → a < 112.5 → (getLunarPatternTierFromAngle a).tier = "Charge") ∧
    (112.5 ≤ a → a < 157.5 → (getLunarPatternTierFromAngle a).tier = "Charge") ∧
    (157.5 ≤ a → a < 202.5 → (getLunarPatternTierFromAngle a).tier = "Overglow") ∧
    (202.5 ≤ a → a < 247.5 → (getLunarPatternTierFromAngle a).tier = "Echofield") ∧
    (247.5 ≤ a → a < 292.5 → (getLunarPatternTierFromAngle a).tier = "Whisper") ∧
    (292.5 ≤ a → (getLunarPatternTierFromAngle a).tier = "Veil") ∧
    (getLunarPatternTierFromAngle 22.5).tier = "Whisper" ∧
    (getLunarPatternTierFromAngle 67.5).tier = "Charge" ∧
    (getLunarPatternTierFromAngle 112.5).tier = "Charge" ∧
    (getLunarPatternTierFromAngle 157.5).tier = "Overglow" ∧
    (getLunarPatternTierFromAngle 202.5).tier = "Echofield" ∧
    (getLunarPatternTierFromAngle 247.5).tier = "Whisper" ∧
    (getLunarPatternTierFromAngle 292.5).tier = "Veil" := by
  refine ⟨?_, ?_, ?_, ?_, ?_, ?_, ?_, ?_, ?_, ?_, ?_, ?_, ?_, ?_, ?_, ?_⟩
  · unfold getLunarPatternTierFromAngle
    split_ifs <;> simp
  · intro h
    unfold getLunarPatternTierFromAngle
    rw [if_pos (show a < 45/2 by linarith)]
  · intro h2 h3
    unfold getLunarPatternTierFromAngle
    rw [if_neg (show ¬ (a < 45/2) by push_neg; linarith),
        if_pos (show a < 135/2 by linarith)]
  · intro h2 h3
    unfold getLunarPatternTierFromAngle
    rw [if_neg (show ¬ (a < 45/2) by push_neg; linarith),
        if_neg (show ¬ (a < 135/2) by push_neg; linarith),
        if_pos (show a < 225/2 by linarith)]
  · intro h2 h3
    unfold getLunarPatternTierFromAngle
    rw [if_neg (show ¬ (a < 45/2) by push_neg; linarith),
        if_neg (show ¬ (a < 135/2) by push_neg; linarith),
        if_neg (show ¬ (a < 225/2) by push_neg; linarith),
        if_pos (show a < 315/2 by linarith)]
  · intro h2 h3
    unfold getLunarPatternTierFromAngle
    rw [if_neg (show ¬ (a < 45/2) by push_neg; linarith),
        if_neg (show ¬ (a < 135/2) by push_neg; linarith),
        if_neg (show ¬ (a < 225/2) by push_neg; linarith),
        if_neg (show ¬ (a < 315/2) by push_neg; linarith),
        if_pos (show a < 405/2 by linarith)]
  · intro h2 h3
    unfold getLunarPatternTierFromAngle
    rw [if_neg (show ¬ (a < 45/2) by push_neg; linarith),
        if_neg (show ¬ (a < 135/2) by push_neg; linarith),
        if_neg (show ¬ (a < 225/2) by push_neg; linarith),
        if_neg (show ¬ (a < 315/2) by push_neg; linarith),
        if_neg (show ¬ (a < 405/2) by push_neg; linarith),
        if_pos (show a < 495/2 by linarith)]
  · intro h2 h3
    unfold getLunarPatternTierFromAngle
    rw [if_neg (show ¬ (a < 45/2) by push_neg; linarith),
        if_neg (show ¬ (a < 135/2) by push_neg; linarith),
        if_neg (show ¬ (a < 225/2) by push_neg; linarith),
        if_neg (show ¬ (a < 315/2) by push_neg; linarith),
        if_neg (show ¬ (a < 405/2) by push_neg; linarith),
        if_neg (show ¬ (a < 495/2) by push_neg; linarith),
        if_pos (show a < 585/2 by linarith)]
  · intro h2
    unfold getLunarPatternTierFromAngle
    rw [if_neg (show ¬ (a < 45/2) by push_neg; linarith),
        if_neg (show ¬ (a < 135/2) by push_neg; linarith),
        if_neg (show ¬ (a < 225/2) by push_neg; linarith),
        if_neg (show ¬ (a < 315/2) by push_neg; linarith),
        if_neg (show ¬ (a < 405/2) by push_neg; linarith),
        if_neg (show ¬ (a < 495/2) by push_neg; linarith),
        if_neg (show ¬ (a < 585/2) by push_neg; linarith)]
  · norm_num [getLunarPatternTierFromAngle]
  · norm_num [getLunarPatternTierFromAngle]
  · norm_num [getLunarPatternTierFromAngle]
  · norm_num [getLunarPatternTierFromAngle]
  · norm_num [getLunarPatternTierFromAngle]
  · norm_num [getLunarPatternTierFromAngle]
  · norm_num [getLunarPatternTierFromAngle]

/-- C6 witness: tier membership at the boundary angle 22.5. -/
theorem c6_sector_table_witness :
    (getLunarPatternTierFromAngle 22.5).tier
      ∈ (["Veil", "Whisper", "Charge", "Overglow", "Echofield"] : List String) :=
  (c6_sector_table 22.5 (by norm_num) (by norm_num)).1

/-- C7: the volume/market-cap ratio field equals the 1-decimal rendering of
volumeUSD / marketCap × 100 when marketCap > 0 and is the literal "0.0"
whenever marketCap ≤ 0, so the division is guarded and never evaluated with
a non-positive divisor. -/
theorem c7_ratio_guard (lunar : LunarSignal) (t : TokenSnapshot) (arch : String)
    (r : Randoms) (gpt : Option String) :
    (t.marketCap > 0 →
      (generateOracleInsight lunar (some t) arch r gpt).volMcapRatio
        = toFixed 1 (t.volumeUSD / t.marketCap * 100)) ∧
    (t.marketCap ≤ 0 →
      (generateOracleInsight lunar (some t) arch r gpt).volMcapRatio = "0.0") := by
  have hfield : (generateOracleInsight lunar (some t) arch r gpt).volMcapRatio
      = (if t.marketCap > 0 then toFixed 1 (t.volumeUSD / t.marketCap * 100) else "0.0") := rfl
  constructor
  · intro h
    rw [hfield, if_pos h]
  · intro h
    rw [hfield, if_neg (not_lt.mpr h)]

/-- C7 witness: a token with positive market cap takes the ratio branch and
a token with zero market cap yields the literal "0.0". -/
theorem c7_ratio_guard_witness :
    (generateOracleInsight lunarFallback (some cheapToken) "seer" sampleRnd none).volMcapRatio
      = toFixed 1 (cheapToken.volumeUSD / cheapToken.marketCap * 100) ∧
    (generateOracleInsight lunarFallback (some zeroCapToken) "seer" sampleRnd none).volMcapRatio
      = "0.0" :=
  ⟨(c7_ratio_guard lunarFallback cheapToken "seer" sampleRnd none).1
      (by norm_num [cheapToken]),
   (c7_ratio_guard lunarFallback zeroCapToken "seer" sampleRnd none).2
      (by norm_num [zeroCapToken, cheapToken])⟩

/-- C8: with the token snapshot, lunar signal, archetype and the GPT
response held fixed, the quote, narrative, ratio, cycle-index, threshold
and echo-rim fields of the report do not depend on the random draws: two
runs with different draws agree on all six fields. -/
theorem c8_deterministic_fields (lunar : LunarSignal) (tokenData : Option TokenSnapshot)
    (arch : String) (r1 r2 : Randoms) (gpt : Option String) :
    (generateOracleInsight lunar tokenData arch r1 gpt).mysticalQuote
      = (generateOracleInsight lunar tokenData arch r2 gpt).mysticalQuote ∧
    (generateOracleInsight lunar tokenData arch r1 gpt).oraclePulse
      = (generateOracleInsight lunar tokenData arch r2 gpt).oraclePulse ∧
    (generateOracleInsight lunar tokenData arch r1 gpt).volMcapRatio
      = (generateOracleInsight lunar tokenData arch r2 gpt).volMcapRatio ∧
    (generateOracleInsight lunar tokenData arch r1 gpt).cycleIndex
      = (generateOracleInsight lunar tokenData arch r2 gpt).cycleIndex ∧
    (generateOracleInsight lunar tokenData arch r1 gpt).threshold
      = (generateOracleInsight lunar tokenData arch r2 gpt).threshold ∧
    (generateOracleInsight lunar tokenData arch r1 gpt).echoRim
      = (generateOracleInsight lunar tokenData arch r2 gpt).echoRim :=
  ⟨rfl, rfl, rfl, rfl, rfl, rfl⟩

/-- C9: when `identifyArchetype` receives rsi = null the destructuring
default of 50 does not apply (it only rewrites undefined), null compares
below the first threshold, and the result is "shadow" for every symbol and
volume — unlike rsi = 50, which yields "seer". -/
theorem c9_null_rsi_shadow (symbol : String) (volume draw : ℚ) :
    identifyArchetype symbol JsVal.null volume draw = "shadow" ∧
    destructDefault JsVal.null 50 = JsVal.null ∧
    destructDefault JsVal.undef 50 = JsVal.num 50 ∧
    identifyArchetype symbol (JsVal.num 50) volume draw = "seer" := by
  refine ⟨?_, rfl, rfl, ?_⟩
  · norm_num [identifyArchetype, destructDefault, jsLt]
  · norm_num [identifyArchetype, destructDefault, jsLt]

/-- C10: on the success path, a phase name outside the 8 canonical ones
(and non-empty, so the JS `||` keeps it) is mapped to angle 0, so the
returned signal pairs the Veil tier of the [0, 22.5) sector with the
default unknown-phase message while staying tagged with the primary-source
tag "weatherapi". -/
theorem c10_unknown_phase_veil (p ill : String)
    (h1 : p ∉ canonicalPhases) (h2 : p ≠ "") :
    getLunarSignal true (FetchOutcome.success { moon_phase := some p, moon_illumination := some ill })
      = { phase := p,
          illumination := jsOrStr (some ill) "0",
          message := "Lunar unknown — silence reverberates.",
          pattern := { tier := "Veil", glyph := "⟡", signal := "Nothing reveals — pause, dream." },
          source := "weatherapi" } := by
  have hmsg := getLunarMessage_default p h1
  have hang := angleMap_none p h1
  have hphase : jsOrStr (some p) lunarFallback.phase = p := by simp [jsOrStr, h2]
  have hpat : getLunarPatternTierFromAngle 0
      = { tier := "Veil", glyph := "⟡", signal := "Nothing reveals — pause, dream." } := by
    norm_num [getLunarPatternTierFromAngle]
  simp [getLunarSignal, hphase, hmsg, hang, hpat]

/-- C10 witness: the unknown phase "Blood Moon". -/
theorem c10_unknown_phase_veil_witness :
    getLunarSignal true (FetchOutcome.success { moon_phase := some "Blood Moon", moon_illumination := some "50" })
      = { phase := "Blood Moon",
          illumination := jsOrStr (some "50") "0",
          message := "Lunar unknown — silence reverberates.",
          pattern := { tier := "Veil", glyph := "⟡", signal := "Nothing reveals — pause, dream." },
          source := "weatherapi" } :=
  c10_unknown_phase_veil "Blood Moon" "50" (by decide) (by decide)

end Alice
